import Mathlib

/-!
DuckStation-Core: the fullscreen-UI / ImGui stubs and the SCM version strings.

Shallow embedding of `src/fullscreen_ui_stub.cpp`, `src/imgui_stubs.cpp` and
`src/scmvers.cpp`.

Every C++ function becomes a state-passing function `Memory → α × Memory`:
it receives the program memory it could reach (the caller-owned objects behind
pointers and references), and gives back its return value together with the
memory it leaves behind.  A body that is empty leaves the memory as it found it;
a body that is `return k;` does the same and returns `k`.
-/

/-! ## Values -/

/-- An address.  Pointers (`Error*`, `SmallStringBase*`, `ImFont*`) and
references (`const Settings&`) are addresses. -/
abbrev Ptr := Nat

/-- The C++ `nullptr`: address zero. -/
def nullptr : Ptr := 0

/-- A value of the C++ type `float`: a finite number, an infinity or a NaN. -/
inductive CFloat where
  | finite (q : ℚ)
  | infinity (negative : Bool)
  | nan
  deriving DecidableEq

/-- The implicit `int → float` conversion applied by `return 640;` in a function
whose return type is `float`.  Integers of magnitude up to `2^24` (all the
literals of the stub files) are represented exactly in binary32. -/
def CFloat.ofInt (n : Int) : CFloat := CFloat.finite (n : ℚ)

/-- The program memory the functions can reach: the characters held by each live
`SmallStringBase`, and the object representation (bytes) of every other live
object (`Error`, `Settings`), both by address.  The stub files declare no
variable of their own. -/
structure Memory where
  strings : Ptr → Option String
  objects : Ptr → Option (List Nat)

/-- A C++ function returning `α`: return value and memory after the call. -/
abbrev Stub (α : Type) := Memory → α × Memory

/-! ## `src/fullscreen_ui_stub.cpp` -/

namespace FullscreenUI

/-- `bool FullscreenUI::Initialize() { return true; }` -/
def Initialize : Stub Bool := fun m => (true, m)

/-- `bool FullscreenUI::IsInitialized() { return true; }` -/
def IsInitialized : Stub Bool := fun m => (true, m)

/-- `bool FullscreenUI::HasActiveWindow() { return true; }` -/
def HasActiveWindow : Stub Bool := fun m => (true, m)

/-- `void FullscreenUI::CheckForConfigChanges(const Settings& old_settings) {}` -/
def CheckForConfigChanges (_old_settings : Ptr) : Stub Unit := fun m => ((), m)

/-- `void FullscreenUI::OnSystemStarted() {}` -/
def OnSystemStarted : Stub Unit := fun m => ((), m)

/-- `void FullscreenUI::OnSystemPaused() {}` -/
def OnSystemPaused : Stub Unit := fun m => ((), m)

/-- `void FullscreenUI::OnSystemResumed() {}` -/
def OnSystemResumed : Stub Unit := fun m => ((), m)

/-- `void FullscreenUI::OnSystemDestroyed() {}` -/
def OnSystemDestroyed : Stub Unit := fun m => ((), m)

/-- `void FullscreenUI::OnRunningGameChanged() {}` -/
def OnRunningGameChanged : Stub Unit := fun m => ((), m)

/-- `void FullscreenUI::Shutdown() {}` -/
def Shutdown : Stub Unit := fun m => ((), m)

/-- `void FullscreenUI::Render() {}` -/
def Render : Stub Unit := fun m => ((), m)

/-- `void FullscreenUI::InvalidateCoverCache() {}` -/
def InvalidateCoverCache : Stub Unit := fun m => ((), m)

/-- `void FullscreenUI::TimeToPrintableString(SmallStringBase* str, time_t t) {}` -/
def TimeToPrintableString (_str : Ptr) (_t : Int) : Stub Unit := fun m => ((), m)

end FullscreenUI

/-! ## `src/imgui_stubs.cpp` -/

namespace ImGuiManager

/-- `void ImGuiManager::SetFontPathAndRange(std::string path, std::vector<u16> range) {}` -/
def SetFontPathAndRange (_path : String) (_range : List Nat) : Stub Unit := fun m => ((), m)

/-- `void ImGuiManager::SetGlobalScale(float global_scale) {}` -/
def SetGlobalScale (_global_scale : CFloat) : Stub Unit := fun m => ((), m)

/-- `void ImGuiManager::SetShowOSDMessages(bool enable) {}` -/
def SetShowOSDMessages (_enable : Bool) : Stub Unit := fun m => ((), m)

/-- `bool ImGuiManager::Initialize(float global_scale, bool show_osd_messages, Error* error)
{ return true; }` -/
def Initialize (_global_scale : CFloat) (_show_osd_messages : Bool) (_error : Ptr) : Stub Bool :=
  fun m => (true, m)

/-- `void ImGuiManager::Shutdown() {}` -/
def Shutdown : Stub Unit := fun m => ((), m)

/-- `float ImGuiManager::GetWindowWidth() { return 640; }` -/
def GetWindowWidth : Stub CFloat := fun m => (CFloat.ofInt 640, m)

/-- `float ImGuiManager::GetWindowHeight() { return 480; }` -/
def GetWindowHeight : Stub CFloat := fun m => (CFloat.ofInt 480, m)

/-- `void ImGuiManager::WindowResized() {}` -/
def WindowResized : Stub Unit := fun m => ((), m)

/-- `void ImGuiManager::UpdateScale() {}` -/
def UpdateScale : Stub Unit := fun m => ((), m)

/-- `void ImGuiManager::NewFrame() {}` -/
def NewFrame : Stub Unit := fun m => ((), m)

/-- `void ImGuiManager::RenderOSDMessages() {}` -/
def RenderOSDMessages : Stub Unit := fun m => ((), m)

/-- `float ImGuiManager::GetGlobalScale() { return 1; }` -/
def GetGlobalScale : Stub CFloat := fun m => (CFloat.ofInt 1, m)

/-- `bool ImGuiManager::HasFullscreenFonts() { return true; }` -/
def HasFullscreenFonts : Stub Bool := fun m => (true, m)

/-- `bool ImGuiManager::AddFullscreenFontsIfMissing() { return true; }` -/
def AddFullscreenFontsIfMissing : Stub Bool := fun m => (true, m)

/-- `ImFont* ImGuiManager::GetStandardFont() { return nullptr; }` -/
def GetStandardFont : Stub Ptr := fun m => (nullptr, m)

/-- `ImFont* ImGuiManager::GetFixedFont() { return nullptr; }` -/
def GetFixedFont : Stub Ptr := fun m => (nullptr, m)

/-- `ImFont* ImGuiManager::GetMediumFont() { return nullptr; }` -/
def GetMediumFont : Stub Ptr := fun m => (nullptr, m)

/-- `ImFont* ImGuiManager::GetLargeFont() { return nullptr; }` -/
def GetLargeFont : Stub Ptr := fun m => (nullptr, m)

/-- `bool ImGuiManager::WantsTextInput() { return false; }` -/
def WantsTextInput : Stub Bool := fun m => (false, m)

/-- `bool ImGuiManager::WantsMouseInput() { return false; }` -/
def WantsMouseInput : Stub Bool := fun m => (false, m)

/-- `void ImGuiManager::AddTextInput(std::string str) {}` -/
def AddTextInput (_str : String) : Stub Unit := fun m => ((), m)

/-- `void ImGuiManager::UpdateMousePosition(float x, float y) {}` -/
def UpdateMousePosition (_x _y : CFloat) : Stub Unit := fun m => ((), m)

/-- `bool ImGuiManager::ProcessPointerButtonEvent(InputBindingKey key, float value)
{ return false; }`.  An `InputBindingKey` is passed as its raw bits. -/
def ProcessPointerButtonEvent (_key : Nat) (_value : CFloat) : Stub Bool := fun m => (false, m)

/-- `bool ImGuiManager::ProcessPointerAxisEvent(InputBindingKey key, float value)
{ return false; }` -/
def ProcessPointerAxisEvent (_key : Nat) (_value : CFloat) : Stub Bool := fun m => (false, m)

/-- `bool ImGuiManager::ProcessHostKeyEvent(InputBindingKey key, float value)
{ return false; }` -/
def ProcessHostKeyEvent (_key : Nat) (_value : CFloat) : Stub Bool := fun m => (false, m)

/-- `bool ImGuiManager::ProcessGenericInputEvent(GenericInputBinding key, float value)
{ return false; }`.  A `GenericInputBinding` is passed as its enumerator number. -/
def ProcessGenericInputEvent (_key : Nat) (_value : CFloat) : Stub Bool := fun m => (false, m)

/-- `void ImGuiManager::SetSoftwareCursor(u32 index, std::string image_path, float image_scale,
u32 multiply_color) {}` -/
def SetSoftwareCursor (_index : Nat) (_image_path : String) (_image_scale : CFloat)
    (_multiply_color : Nat) : Stub Unit := fun m => ((), m)

/-- `bool ImGuiManager::HasSoftwareCursor(u32 index) { return false; }` -/
def HasSoftwareCursor (_index : Nat) : Stub Bool := fun m => (false, m)

/-- `void ImGuiManager::ClearSoftwareCursor(u32 index) {}` -/
def ClearSoftwareCursor (_index : Nat) : Stub Unit := fun m => ((), m)

/-- `void ImGuiManager::SetSoftwareCursorPosition(u32 index, float pos_x, float pos_y) {}` -/
def SetSoftwareCursorPosition (_index : Nat) (_pos_x _pos_y : CFloat) : Stub Unit :=
  fun m => ((), m)

/-- `void ImGuiManager::RenderSoftwareCursors() {}` -/
def RenderSoftwareCursors : Stub Unit := fun m => ((), m)

/-- `void ImGuiManager::RenderTextOverlays() {}` -/
def RenderTextOverlays : Stub Unit := fun m => ((), m)

/-- `void ImGuiManager::RenderDebugWindows() {}` -/
def RenderDebugWindows : Stub Unit := fun m => ((), m)

/-- `void ImGuiManager::RenderOverlayWindows() {}` -/
def RenderOverlayWindows : Stub Unit := fun m => ((), m)

/-- `void ImGuiManager::DestroyOverlayTextures() {}` -/
def DestroyOverlayTextures : Stub Unit := fun m => ((), m)

end ImGuiManager

namespace SaveStateSelectorUI

/-- `bool SaveStateSelectorUI::IsOpen() { return false; }` -/
def IsOpen : Stub Bool := fun m => (false, m)

/-- `void SaveStateSelectorUI::Open(float open_time) {}` -/
def Open (_open_time : CFloat) : Stub Unit := fun m => ((), m)

/-- `void SaveStateSelectorUI::RefreshList(const std::string& serial) {}` -/
def RefreshList (_serial : String) : Stub Unit := fun m => ((), m)

/-- `void SaveStateSelectorUI::Clear() {}` -/
def Clear : Stub Unit := fun m => ((), m)

/-- `void SaveStateSelectorUI::ClearList() {}` -/
def ClearList : Stub Unit := fun m => ((), m)

end SaveStateSelectorUI

/-! ## `src/scmvers.cpp` -/

/-- Line 27 of `src/scmvers.cpp`, the comment above the four constants. -/
def scm_provenance_comment : String :=
  "// 9bf1d61f4fc0825cf26f38526552ff0ba15771be master 0.1-1901-g9bf1d61f 2020-10-03T01:23:04+10:00"

/-- `const char* g_scm_hash_str = "9bf1d61f4fc0825cf26f38526552ff0ba15771be";` -/
def g_scm_hash_str : String := "9bf1d61f4fc0825cf26f38526552ff0ba15771be"

/-- `const char* g_scm_branch_str = "master";` -/
def g_scm_branch_str : String := "master"

/-- `const char* g_scm_tag_str = "0.1-1901-g9bf1d61f";` -/
def g_scm_tag_str : String := "0.1-1901-g9bf1d61f"

/-- `const char* g_scm_date_str = "2020-10-03T01:23:04+10:00";` -/
def g_scm_date_str : String := "2020-10-03T01:23:04+10:00"

/-- Joins strings with single spaces between them. -/
def joinWithSpaces : List String → String
  | [] => ""
  | [s] => s
  | s :: t :: rest => s ++ " " ++ joinWithSpaces (t :: rest)

/-- A lowercase hexadecimal digit: `0`..`9` or `a`..`f`. -/
def isLowerHexDigit (c : Char) : Bool :=
  (decide ('0' ≤ c) && decide (c ≤ '9')) || (decide ('a' ≤ c) && decide (c ≤ 'f'))

/-- Whether `pat` opens the character list `s`. -/
def startsWithChars : List Char → List Char → Bool
  | [], _ => true
  | _ :: _, [] => false
  | p :: ps, c :: cs => p == c && startsWithChars ps cs

/-- The characters of `s` that follow the last occurrence of `pat`, if `pat` occurs. -/
def afterLastChars (pat : List Char) : List Char → Option (List Char)
  | [] => if pat.isEmpty then some [] else none
  | c :: cs =>
    match afterLastChars pat cs with
    | some r => some r
    | none => if startsWithChars pat (c :: cs) then some ((c :: cs).drop pat.length) else none

/-- The part of the string `s` after the final occurrence of `pat`. -/
def afterLast (pat s : String) : Option String :=
  (afterLastChars pat.data s.data).map String.mk

/-! ## Call sequences -/

/-- What a call gives back: nothing, a `bool`, a `float` or a pointer. -/
inductive Ret where
  | void
  | bool (b : Bool)
  | float (f : CFloat)
  | pointer (p : Ptr)
  deriving DecidableEq

/-- One call to a function of the two stub files, with its arguments. -/
inductive Call where
  | FullscreenUI_Initialize
  | FullscreenUI_IsInitialized
  | FullscreenUI_HasActiveWindow
  | FullscreenUI_CheckForConfigChanges (old_settings : Ptr)
  | FullscreenUI_OnSystemStarted
  | FullscreenUI_OnSystemPaused
  | FullscreenUI_OnSystemResumed
  | FullscreenUI_OnSystemDestroyed
  | FullscreenUI_OnRunningGameChanged
  | FullscreenUI_Shutdown
  | FullscreenUI_Render
  | FullscreenUI_InvalidateCoverCache
  | FullscreenUI_TimeToPrintableString (str : Ptr) (t : Int)
  | ImGuiManager_SetFontPathAndRange (path : String) (range : List Nat)
  | ImGuiManager_SetGlobalScale (global_scale : CFloat)
  | ImGuiManager_SetShowOSDMessages (enable : Bool)
  | ImGuiManager_Initialize (global_scale : CFloat) (show_osd_messages : Bool) (error : Ptr)
  | ImGuiManager_Shutdown
  | ImGuiManager_GetWindowWidth
  | ImGuiManager_GetWindowHeight
  | ImGuiManager_WindowResized
  | ImGuiManager_UpdateScale
  | ImGuiManager_NewFrame
  | ImGuiManager_RenderOSDMessages
  | ImGuiManager_GetGlobalScale
  | ImGuiManager_HasFullscreenFonts
  | ImGuiManager_AddFullscreenFontsIfMissing
  | ImGuiManager_GetStandardFont
  | ImGuiManager_GetFixedFont
  | ImGuiManager_GetMediumFont
  | ImGuiManager_GetLargeFont
  | ImGuiManager_WantsTextInput
  | ImGuiManager_WantsMouseInput
  | ImGuiManager_AddTextInput (str : String)
  | ImGuiManager_UpdateMousePosition (x y : CFloat)
  | ImGuiManager_ProcessPointerButtonEvent (key : Nat) (value : CFloat)
  | ImGuiManager_ProcessPointerAxisEvent (key : Nat) (value : CFloat)
  | ImGuiManager_ProcessHostKeyEvent (key : Nat) (value : CFloat)
  | ImGuiManager_ProcessGenericInputEvent (key : Nat) (value : CFloat)
  | ImGuiManager_SetSoftwareCursor (index : Nat) (image_path : String) (image_scale : CFloat)
      (multiply_color : Nat)
  | ImGuiManager_HasSoftwareCursor (index : Nat)
  | ImGuiManager_ClearSoftwareCursor (index : Nat)
  | ImGuiManager_SetSoftwareCursorPosition (index : Nat) (pos_x pos_y : CFloat)
  | ImGuiManager_RenderSoftwareCursors
  | ImGuiManager_RenderTextOverlays
  | ImGuiManager_RenderDebugWindows
  | ImGuiManager_RenderOverlayWindows
  | ImGuiManager_DestroyOverlayTextures
  | SaveStateSelectorUI_IsOpen
  | SaveStateSelectorUI_Open (open_time : CFloat)
  | SaveStateSelectorUI_RefreshList (serial : String)
  | SaveStateSelectorUI_Clear
  | SaveStateSelectorUI_ClearList

/-- A call to a `void` function: nothing is returned. -/
def callVoid (f : Stub Unit) (m : Memory) : Ret × Memory := (Ret.void, (f m).2)

/-- A call to a `bool` function. -/
def callBool (f : Stub Bool) (m : Memory) : Ret × Memory := (Ret.bool (f m).1, (f m).2)

/-- A call to a `float` function. -/
def callFloat (f : Stub CFloat) (m : Memory) : Ret × Memory := (Ret.float (f m).1, (f m).2)

/-- A call to a function returning `ImFont*`. -/
def callPointer (f : Stub Ptr) (m : Memory) : Ret × Memory := (Ret.pointer (f m).1, (f m).2)

/-- Performs one call: dispatches to the function named, with the arguments given. -/
def Call.run : Call → Memory → Ret × Memory
  | .FullscreenUI_Initialize => callBool FullscreenUI.Initialize
  | .FullscreenUI_IsInitialized => callBool FullscreenUI.IsInitialized
  | .FullscreenUI_HasActiveWindow => callBool FullscreenUI.HasActiveWindow
  | .FullscreenUI_CheckForConfigChanges s => callVoid (FullscreenUI.CheckForConfigChanges s)
  | .FullscreenUI_OnSystemStarted => callVoid FullscreenUI.OnSystemStarted
  | .FullscreenUI_OnSystemPaused => callVoid FullscreenUI.OnSystemPaused
  | .FullscreenUI_OnSystemResumed => callVoid FullscreenUI.OnSystemResumed
  | .FullscreenUI_OnSystemDestroyed => callVoid FullscreenUI.OnSystemDestroyed
  | .FullscreenUI_OnRunningGameChanged => callVoid FullscreenUI.OnRunningGameChanged
  | .FullscreenUI_Shutdown => callVoid FullscreenUI.Shutdown
  | .FullscreenUI_Render => callVoid FullscreenUI.Render
  | .FullscreenUI_InvalidateCoverCache => callVoid FullscreenUI.InvalidateCoverCache
  | .FullscreenUI_TimeToPrintableString str t =>
    callVoid (FullscreenUI.TimeToPrintableString str t)
  | .ImGuiManager_SetFontPathAndRange path range =>
    callVoid (ImGuiManager.SetFontPathAndRange path range)
  | .ImGuiManager_SetGlobalScale s => callVoid (ImGuiManager.SetGlobalScale s)
  | .ImGuiManager_SetShowOSDMessages e => callVoid (ImGuiManager.SetShowOSDMessages e)
  | .ImGuiManager_Initialize s o e => callBool (ImGuiManager.Initialize s o e)
  | .ImGuiManager_Shutdown => callVoid ImGuiManager.Shutdown
  | .ImGuiManager_GetWindowWidth => callFloat ImGuiManager.GetWindowWidth
  | .ImGuiManager_GetWindowHeight => callFloat ImGuiManager.GetWindowHeight
  | .ImGuiManager_WindowResized => callVoid ImGuiManager.WindowResized
  | .ImGuiManager_UpdateScale => callVoid ImGuiManager.UpdateScale
  | .ImGuiManager_NewFrame => callVoid ImGuiManager.NewFrame
  | .ImGuiManager_RenderOSDMessages => callVoid ImGuiManager.RenderOSDMessages
  | .ImGuiManager_GetGlobalScale => callFloat ImGuiManager.GetGlobalScale
  | .ImGuiManager_HasFullscreenFonts => callBool ImGuiManager.HasFullscreenFonts
  | .ImGuiManager_AddFullscreenFontsIfMissing =>
    callBool ImGuiManager.AddFullscreenFontsIfMissing
  | .ImGuiManager_GetStandardFont => callPointer ImGuiManager.GetStandardFont
  | .ImGuiManager_GetFixedFont => callPointer ImGuiManager.GetFixedFont
  | .ImGuiManager_GetMediumFont => callPointer ImGuiManager.GetMediumFont
  | .ImGuiManager_GetLargeFont => callPointer ImGuiManager.GetLargeFont
  | .ImGuiManager_WantsTextInput => callBool ImGuiManager.WantsTextInput
  | .ImGuiManager_WantsMouseInput => callBool ImGuiManager.WantsMouseInput
  | .ImGuiManager_AddTextInput s => callVoid (ImGuiManager.AddTextInput s)
  | .ImGuiManager_UpdateMousePosition x y => callVoid (ImGuiManager.UpdateMousePosition x y)
  | .ImGuiManager_ProcessPointerButtonEvent k v =>
    callBool (ImGuiManager.ProcessPointerButtonEvent k v)
  | .ImGuiManager_ProcessPointerAxisEvent k v =>
    callBool (ImGuiManager.ProcessPointerAxisEvent k v)
  | .ImGuiManager_ProcessHostKeyEvent k v => callBool (ImGuiManager.ProcessHostKeyEvent k v)
  | .ImGuiManager_ProcessGenericInputEvent k v =>
    callBool (ImGuiManager.ProcessGenericInputEvent k v)
  | .ImGuiManager_SetSoftwareCursor i p s c => callVoid (ImGuiManager.SetSoftwareCursor i p s c)
  | .ImGuiManager_HasSoftwareCursor i => callBool (ImGuiManager.HasSoftwareCursor i)
  | .ImGuiManager_ClearSoftwareCursor i => callVoid (ImGuiManager.ClearSoftwareCursor i)
  | .ImGuiManager_SetSoftwareCursorPosition i x y =>
    callVoid (ImGuiManager.SetSoftwareCursorPosition i x y)
  | .ImGuiManager_RenderSoftwareCursors => callVoid ImGuiManager.RenderSoftwareCursors
  | .ImGuiManager_RenderTextOverlays => callVoid ImGuiManager.RenderTextOverlays
  | .ImGuiManager_RenderDebugWindows => callVoid ImGuiManager.RenderDebugWindows
  | .ImGuiManager_RenderOverlayWindows => callVoid ImGuiManager.RenderOverlayWindows
  | .ImGuiManager_DestroyOverlayTextures => callVoid ImGuiManager.DestroyOverlayTextures
  | .SaveStateSelectorUI_IsOpen => callBool SaveStateSelectorUI.IsOpen
  | .SaveStateSelectorUI_Open t => callVoid (SaveStateSelectorUI.Open t)
  | .SaveStateSelectorUI_RefreshList s => callVoid (SaveStateSelectorUI.RefreshList s)
  | .SaveStateSelectorUI_Clear => callVoid SaveStateSelectorUI.Clear
  | .SaveStateSelectorUI_ClearList => callVoid SaveStateSelectorUI.ClearList

/-- The memory left by a sequence of calls made one after the other, starting in `m`. -/
def runCalls : List Call → Memory → Memory
  | [], m => m
  | c :: cs, m => runCalls cs (c.run m).2

/-- Whether the function called is declared with return type `void`. -/
def Call.returnsVoid : Call → Bool
  | .FullscreenUI_Initialize => false
  | .FullscreenUI_IsInitialized => false
  | .FullscreenUI_HasActiveWindow => false
  | .ImGuiManager_Initialize _ _ _ => false
  | .ImGuiManager_GetWindowWidth => false
  | .ImGuiManager_GetWindowHeight => false
  | .ImGuiManager_GetGlobalScale => false
  | .ImGuiManager_HasFullscreenFonts => false
  | .ImGuiManager_AddFullscreenFontsIfMissing => false
  | .ImGuiManager_GetStandardFont => false
  | .ImGuiManager_GetFixedFont => false
  | .ImGuiManager_GetMediumFont => false
  | .ImGuiManager_GetLargeFont => false
  | .ImGuiManager_WantsTextInput => false
  | .ImGuiManager_WantsMouseInput => false
  | .ImGuiManager_ProcessPointerButtonEvent _ _ => false
  | .ImGuiManager_ProcessPointerAxisEvent _ _ => false
  | .ImGuiManager_ProcessHostKeyEvent _ _ => false
  | .ImGuiManager_ProcessGenericInputEvent _ _ => false
  | .ImGuiManager_HasSoftwareCursor _ => false
  | .SaveStateSelectorUI_IsOpen => false
  | _ => true

/-- The render entry points, the invalidate and destroy calls, both `Shutdown`s and the
event hooks. -/
def renderAndEventCalls (old_settings : Ptr) : List Call :=
  [ .FullscreenUI_Render, .ImGuiManager_RenderOSDMessages, .ImGuiManager_RenderSoftwareCursors,
    .ImGuiManager_RenderTextOverlays, .ImGuiManager_RenderDebugWindows,
    .ImGuiManager_RenderOverlayWindows,
    .FullscreenUI_InvalidateCoverCache, .ImGuiManager_DestroyOverlayTextures,
    .FullscreenUI_Shutdown, .ImGuiManager_Shutdown,
    .FullscreenUI_OnSystemStarted, .FullscreenUI_OnSystemPaused, .FullscreenUI_OnSystemResumed,
    .FullscreenUI_OnSystemDestroyed, .FullscreenUI_OnRunningGameChanged,
    .FullscreenUI_CheckForConfigChanges old_settings ]

/-- A memory holding one string buffer (at address 4096) and one other object (at 8192). -/
def sampleMemory : Memory where
  strings := fun p => if p = 4096 then some "12:34:56" else none
  objects := fun p => if p = 8192 then some [0, 0, 0, 0] else none

/-! ## Properties -/

/-- No call writes to memory. -/
theorem Call.run_memory (c : Call) (m : Memory) : (c.run m).2 = m := by
  cases c <;> rfl

/-- No sequence of calls writes to memory. -/
theorem runCalls_memory (cs : List Call) (m : Memory) : runCalls cs m = m := by
  induction cs generalizing m with
  | nil => rfl
  | cons c cs ih => rw [runCalls, Call.run_memory, ih]

/-- What a call returns does not depend on the memory it runs in. -/
theorem Call.run_result (c : Call) (m₁ m₂ : Memory) : (c.run m₁).1 = (c.run m₂).1 := by
  cases c <;> rfl

/-- The floats 1 and 2 are different values. -/
theorem CFloat.ofInt_one_ne_two : CFloat.ofInt 1 ≠ CFloat.ofInt 2 := by decide

/-- Claim C1: after every sequence of calls, `FullscreenUI::Initialize()`,
`FullscreenUI::IsInitialized()` and `ImGuiManager::Initialize(global_scale, show_osd_messages,
error)` return true for all arguments, and `ImGuiManager::Initialize` leaves the whole memory,
so also the object `error` points to, as it was before the call. -/
theorem lifecycle_always_reports_success (calls : List Call) (m : Memory)
    (global_scale : CFloat) (show_osd_messages : Bool) (error : Ptr) :
    (FullscreenUI.Initialize (runCalls calls m)).1 = true ∧
    (FullscreenUI.IsInitialized (runCalls calls m)).1 = true ∧
    (ImGuiManager.Initialize global_scale show_osd_messages error (runCalls calls m)).1 = true ∧
    (ImGuiManager.Initialize global_scale show_osd_messages error (runCalls calls m)).2
      = runCalls calls m ∧
    (ImGuiManager.Initialize global_scale show_osd_messages error (runCalls calls m)).2.objects
      error = (runCalls calls m).objects error ∧
    (ImGuiManager.Initialize global_scale show_osd_messages error (runCalls calls m)).2.objects
      error = m.objects error :=
  ⟨rfl, rfl, rfl, rfl, rfl, by rw [runCalls_memory]; rfl⟩

/-- Claim C2: after every sequence of calls (which may hold `WindowResized`, `UpdateScale` and
`Initialize` with any scale), `ImGuiManager::GetWindowWidth()` returns 640 and
`ImGuiManager::GetWindowHeight()` returns 480. -/
theorem window_size_is_640_by_480 (calls : List Call) (m : Memory) :
    (ImGuiManager.GetWindowWidth (runCalls calls m)).1 = CFloat.ofInt 640 ∧
    (ImGuiManager.GetWindowHeight (runCalls calls m)).1 = CFloat.ofInt 480 :=
  ⟨rfl, rfl⟩

/-- Claim C3: for every value `s`, `ImGuiManager::GetGlobalScale()` returns 1 after
`SetGlobalScale(s)`, after `Initialize(s, ...)`, after `UpdateScale()`, and after either of the
first two followed by `UpdateScale()`; after `SetGlobalScale(2)` the getter does not return 2. -/
theorem global_scale_is_one_after_set (s : CFloat) (show_osd_messages : Bool) (error : Ptr)
    (m : Memory) :
    (ImGuiManager.GetGlobalScale (ImGuiManager.SetGlobalScale s m).2).1 = CFloat.ofInt 1 ∧
    (ImGuiManager.GetGlobalScale (ImGuiManager.Initialize s show_osd_messages error m).2).1
      = CFloat.ofInt 1 ∧
    (ImGuiManager.GetGlobalScale (ImGuiManager.UpdateScale m).2).1 = CFloat.ofInt 1 ∧
    (ImGuiManager.GetGlobalScale
      (ImGuiManager.UpdateScale (ImGuiManager.SetGlobalScale s m).2).2).1 = CFloat.ofInt 1 ∧
    (ImGuiManager.GetGlobalScale
      (ImGuiManager.UpdateScale (ImGuiManager.Initialize s show_osd_messages error m).2).2).1
      = CFloat.ofInt 1 ∧
    (ImGuiManager.GetGlobalScale (ImGuiManager.SetGlobalScale (CFloat.ofInt 2) m).2).1
      ≠ CFloat.ofInt 2 :=
  ⟨rfl, rfl, rfl, rfl, rfl, CFloat.ofInt_one_ne_two⟩

/-- Claim C4: for every key and value the four `Process...Event` functions return false, and
`WantsTextInput()` and `WantsMouseInput()` return false after every sequence of calls, also
right after `AddTextInput` and `UpdateMousePosition`. -/
theorem input_is_never_wanted_or_handled (key generic_key : Nat) (value x y : CFloat)
    (str : String) (calls : List Call) (m : Memory) :
    (ImGuiManager.ProcessPointerButtonEvent key value m).1 = false ∧
    (ImGuiManager.ProcessPointerAxisEvent key value m).1 = false ∧
    (ImGuiManager.ProcessHostKeyEvent key value m).1 = false ∧
    (ImGuiManager.ProcessGenericInputEvent generic_key value m).1 = false ∧
    (ImGuiManager.WantsTextInput (runCalls calls m)).1 = false ∧
    (ImGuiManager.WantsMouseInput (runCalls calls m)).1 = false ∧
    (ImGuiManager.WantsTextInput (ImGuiManager.AddTextInput str m).2).1 = false ∧
    (ImGuiManager.WantsMouseInput (ImGuiManager.AddTextInput str m).2).1 = false ∧
    (ImGuiManager.WantsTextInput (ImGuiManager.UpdateMousePosition x y m).2).1 = false ∧
    (ImGuiManager.WantsMouseInput (ImGuiManager.UpdateMousePosition x y m).2).1 = false :=
  ⟨rfl, rfl, rfl, rfl, rfl, rfl, rfl, rfl, rfl, rfl⟩

/-- Claim C5: `GetStandardFont()`, `GetFixedFont()`, `GetMediumFont()` and `GetLargeFont()`
return the null handle after every sequence of calls, also right after
`SetFontPathAndRange(path, range)` and after `Initialize`, which returned true. -/
theorem font_accessors_return_null (path : String) (range : List Nat) (global_scale : CFloat)
    (show_osd_messages : Bool) (error : Ptr) (calls : List Call) (m : Memory) :
    ((ImGuiManager.GetStandardFont (runCalls calls m)).1 = nullptr ∧
     (ImGuiManager.GetFixedFont (runCalls calls m)).1 = nullptr ∧
     (ImGuiManager.GetMediumFont (runCalls calls m)).1 = nullptr ∧
     (ImGuiManager.GetLargeFont (runCalls calls m)).1 = nullptr) ∧
    ((ImGuiManager.GetStandardFont (ImGuiManager.SetFontPathAndRange path range m).2).1
       = nullptr ∧
     (ImGuiManager.GetFixedFont (ImGuiManager.SetFontPathAndRange path range m).2).1 = nullptr ∧
     (ImGuiManager.GetMediumFont (ImGuiManager.SetFontPathAndRange path range m).2).1
       = nullptr ∧
     (ImGuiManager.GetLargeFont (ImGuiManager.SetFontPathAndRange path range m).2).1
       = nullptr) ∧
    ((ImGuiManager.Initialize global_scale show_osd_messages error m).1 = true ∧
     (ImGuiManager.GetStandardFont
       (ImGuiManager.Initialize global_scale show_osd_messages error m).2).1 = nullptr ∧
     (ImGuiManager.GetFixedFont
       (ImGuiManager.Initialize global_scale show_osd_messages error m).2).1 = nullptr ∧
     (ImGuiManager.GetMediumFont
       (ImGuiManager.Initialize global_scale show_osd_messages error m).2).1 = nullptr ∧
     (ImGuiManager.GetLargeFont
       (ImGuiManager.Initialize global_scale show_osd_messages error m).2).1 = nullptr) :=
  ⟨⟨rfl, rfl, rfl, rfl⟩, ⟨rfl, rfl, rfl, rfl⟩, ⟨rfl, rfl, rfl, rfl, rfl⟩⟩

/-- Claim C6: every call `c` to a `void` function of the stub (the render entry points, the
invalidate and destroy calls, both `Shutdown`s, the event hooks with any `old_settings`, and the
other `void` functions) returns normally with nothing returned and the memory as it was, and
every call `q` made after it returns what it would have returned before it. -/
theorem void_calls_are_inert (c : Call) (h : c.returnsVoid = true) (m : Memory) :
    c.run m = (Ret.void, m) ∧ ∀ q : Call, (q.run (c.run m).2).1 = (q.run m).1 := by
  refine ⟨?_, fun q => Call.run_result q _ _⟩
  cases c <;> first | rfl | exact Bool.noConfusion h

/-- Claim C6, at concrete inputs: the sixteen calls the claim lists are calls to `void`
functions, and `FullscreenUI::Render()` on the sample memory returns nothing, leaves the memory
as it was, and leaves the result of `ImGuiManager::GetWindowWidth()` as it was. -/
theorem void_calls_are_inert_witness :
    (renderAndEventCalls 8192).all Call.returnsVoid = true ∧
    Call.FullscreenUI_Render.returnsVoid = true ∧
    Call.FullscreenUI_Render.run sampleMemory = (Ret.void, sampleMemory) ∧
    (Call.ImGuiManager_GetWindowWidth.run (Call.FullscreenUI_Render.run sampleMemory).2).1
      = (Call.ImGuiManager_GetWindowWidth.run sampleMemory).1 :=
  ⟨by decide, rfl, (void_calls_are_inert .FullscreenUI_Render rfl sampleMemory).1,
    (void_calls_are_inert .FullscreenUI_Render rfl sampleMemory).2 .ImGuiManager_GetWindowWidth⟩

/-- Claim C7: for every buffer address `str`, every time `t` and every memory,
`FullscreenUI::TimeToPrintableString(str, t)` returns with the memory as it was; the characters
held by the buffer `str` are those it held before the call. -/
theorem time_to_printable_string_writes_nothing (str : Ptr) (t : Int) (m : Memory) :
    FullscreenUI.TimeToPrintableString str t m = ((), m) ∧
    (FullscreenUI.TimeToPrintableString str t m).2.strings str = m.strings str :=
  ⟨rfl, rfl⟩

/-- Claim C8: the four version strings have the values given; joined in the order hash, branch,
tag, date with single spaces they are the text of the comment above them (after its `// `);
the hash is 40 lowercase hexadecimal characters; the part of the tag after the final `-g` is
the first 8 characters of the hash. -/
theorem scm_version_strings :
    g_scm_hash_str = "9bf1d61f4fc0825cf26f38526552ff0ba15771be" ∧
    g_scm_branch_str = "master" ∧
    g_scm_tag_str = "0.1-1901-g9bf1d61f" ∧
    g_scm_date_str = "2020-10-03T01:23:04+10:00" ∧
    "// " ++ joinWithSpaces [g_scm_hash_str, g_scm_branch_str, g_scm_tag_str, g_scm_date_str]
      = scm_provenance_comment ∧
    g_scm_hash_str.length = 40 ∧
    g_scm_hash_str.data.all isLowerHexDigit = true ∧
    afterLast "-g" g_scm_tag_str = some (String.mk (g_scm_hash_str.data.take 8)) :=
  ⟨rfl, rfl, rfl, rfl, by decide, by decide, by decide, by decide⟩

/-- Claim C9: after every sequence of calls, `HasFullscreenFonts()` and
`AddFullscreenFontsIfMissing()` return true while `GetMediumFont()` and `GetLargeFont()` return
the null handle, also right after `AddFullscreenFontsIfMissing()`; so a true answer does not
imply that a fullscreen font handle is non-null. -/
theorem fullscreen_fonts_reported_yet_null (calls : List Call) (m : Memory) :
    (ImGuiManager.HasFullscreenFonts (runCalls calls m)).1 = true ∧
    (ImGuiManager.AddFullscreenFontsIfMissing (runCalls calls m)).1 = true ∧
    (ImGuiManager.GetMediumFont (runCalls calls m)).1 = nullptr ∧
    (ImGuiManager.GetLargeFont (runCalls calls m)).1 = nullptr ∧
    (ImGuiManager.GetMediumFont
      (ImGuiManager.AddFullscreenFontsIfMissing (runCalls calls m)).2).1 = nullptr ∧
    (ImGuiManager.GetLargeFont
      (ImGuiManager.AddFullscreenFontsIfMissing (runCalls calls m)).2).1 = nullptr ∧
    ¬ ((ImGuiManager.HasFullscreenFonts (runCalls calls m)).1 = true →
        (ImGuiManager.GetMediumFont (runCalls calls m)).1 ≠ nullptr ∨
        (ImGuiManager.GetLargeFont (runCalls calls m)).1 ≠ nullptr) :=
  ⟨rfl, rfl, rfl, rfl, rfl, rfl, fun h => (h rfl).elim (fun k => k rfl) (fun k => k rfl)⟩

/-- Claim C10: for every index, image path, image scale and colour, `HasSoftwareCursor(index)`
returns false right after `SetSoftwareCursor(index, image_path, image_scale, multiply_color)`;
for every `open_time`, `SaveStateSelectorUI::IsOpen()` returns false right after
`SaveStateSelectorUI::Open(open_time)`. -/
theorem setting_does_not_make_query_true (index : Nat) (image_path : String)
    (image_scale : CFloat) (multiply_color : Nat) (open_time : CFloat) (m : Memory) :
    (ImGuiManager.HasSoftwareCursor index
      (ImGuiManager.SetSoftwareCursor index image_path image_scale multiply_color m).2).1
      = false ∧
    (SaveStateSelectorUI.IsOpen (SaveStateSelectorUI.Open open_time m).2).1 = false :=
  ⟨rfl, rfl⟩
